import Mathlib

/-!
Verification development for the equilibria controller IPC layer.

The repository contains two implementations of the v0 newline-delimited
JSON protocol:

* the "shared" path: `src/shared/include/json_utils.hpp` (substring-based
  field extraction, `parse_message`, `serialize_message`, `serialize_ack`)
  driven by the dispatcher `process_command` in `src/controller/main.cpp`;
* the "controller" path: `src/controller/src/ipc_protocol.cpp` built on the
  flat-map JSON parser `src/controller/third_party/json/minimal_json.hpp`.

Both are embedded below.  All numeric values are modelled as rationals
(`ℚ`); machine-integer casts in the binary telemetry frame are modelled
with explicit truncation and `% 2^w` reductions.
-/

set_option maxHeartbeats 1000000
set_option maxRecDepth 4096

namespace Equilibria

/-- Characters accepted by the C `isspace` classifier used throughout
`json_utils.hpp` and `minimal_json.hpp`. -/
def cIsSpace (c : Char) : Bool :=
  c = ' ' || c = '\t' || c = '\n' || c = '\x0b' || c = '\x0c' || c = '\r'

/-- Value of a digit string, most significant digit first, as folded by
repeated multiplication (base 10). -/
def digitsVal (l : List Char) : ℕ :=
  l.foldl (fun n c => 10 * n + (c.toNat - '0'.toNat)) 0

/-- Model of `std::stod`: optional leading whitespace, an optional sign,
then an integer part and an optional fractional part; any trailing
characters are ignored, exactly as `stod` stops at the first
non-numeric character.  When no digit can be consumed at all, `stod`
throws `std::invalid_argument` whose `what()` is the string `stod`;
that outcome is the `error` case here. -/
def stodQ (s : String) : Except String ℚ :=
  let l := s.data.dropWhile cIsSpace
  let rest := match l with
    | '-' :: r => r
    | '+' :: r => r
    | r => r
  let neg : Bool := match l with
    | '-' :: _ => true
    | _ => false
  let ip := rest.takeWhile Char.isDigit
  let r2 := rest.dropWhile Char.isDigit
  let fp := match r2 with
    | '.' :: r3 => r3.takeWhile Char.isDigit
    | _ => []
  if ip.isEmpty && fp.isEmpty then .error "stod"
  else
    let mag : ℚ := (digitsVal ip : ℚ) + (digitsVal fp : ℚ) / ((10 : ℚ) ^ fp.length)
    .ok (if neg then -mag else mag)

/-- Zero-padded decimal rendering of a natural number to a fixed width,
as produced by the fractional part of `std::to_string` on a double. -/
def padLeftZeros (width : ℕ) (n : ℕ) : String :=
  let s := toString n
  String.mk (List.replicate (width - s.length) '0') ++ s

/-- Model of `std::to_string(double)`: fixed-point notation with exactly
six decimal places.  All doubles serialized by this codebase are exact
at six decimal places, so no floating-point rounding is involved. -/
def doubleToString (x : ℚ) : String :=
  let n : ℤ := round (x * 1000000)
  (if n < 0 then "-" else "") ++
    toString (n.natAbs / 1000000) ++ "." ++ padLeftZeros 6 (n.natAbs % 1000000)

/-- Four-digit lowercase hexadecimal rendering used by the `\u%04x`
control-character escape in `escape_json_string`. -/
def hexDigit (n : ℕ) : Char :=
  if n < 10 then Char.ofNat ('0'.toNat + n) else Char.ofNat ('a'.toNat + (n - 10))

/-- Hexadecimal rendering helper for `\u%04x` (values below 0x20 only
ever produce two significant digits, but the format pads to four). -/
def hex4 (n : ℕ) : List Char :=
  [hexDigit (n / 4096 % 16), hexDigit (n / 256 % 16), hexDigit (n / 16 % 16), hexDigit (n % 16)]

/-- Escape of one character, following the `switch` in
`json_utils.hpp::escape_json_string`: quote, backslash, the five named
control escapes, then `\u00XX` for the remaining control bytes.  The
protocol restricts payloads to ASCII, which is the domain on which this
byte-level model and the C++ `char` loop agree. -/
def escapeChar (c : Char) : List Char :=
  if c = '\x22' then ['\\', '\x22']
  else if c = '\\' then ['\\', '\\']
  else if c = '\x08' then ['\\', 'b']
  else if c = '\x0c' then ['\\', 'f']
  else if c = '\n' then ['\\', 'n']
  else if c = '\r' then ['\\', 'r']
  else if c = '\t' then ['\\', 't']
  else if c.toNat < 0x20 then '\\' :: 'u' :: hex4 c.toNat
  else [c]

/-- `json_utils.hpp::escape_json_string`. -/
def escape_json_string (input : String) : String :=
  String.mk (input.data.flatMap escapeChar)

/-- Protocol version constant `ipc::PROTOCOL_VERSION`. -/
def PROTOCOL_VERSION : String := "v0"

/-- `ipc::TemperatureReadings` (optional readings in Celsius). -/
structure TemperatureReadings where
  vapour_head : Option ℚ
  boiler_liquid : Option ℚ
  pcb_environment : Option ℚ
deriving DecidableEq, Repr

/-- `ipc::PressureReadings` (optional readings in kPa). -/
structure PressureReadings where
  ambient : Option ℚ
  vapour : Option ℚ
deriving DecidableEq, Repr

/-- `ipc::ValvePositions` (`int` percentages). -/
structure ValvePositions where
  reflux_control : ℤ
  product_takeoff : ℤ
deriving DecidableEq, Repr

/-- `ipc::HeaterLevels` (`int` percentages). -/
structure HeaterLevels where
  heater_1 : ℤ
  heater_2 : ℤ
deriving DecidableEq, Repr

/-- `ipc::TelemetryPayload`. -/
structure TelemetryPayload where
  timestamp_ms : ℤ
  mode : String
  temps : TemperatureReadings
  pressures : PressureReadings
  flow_ml_min : Option ℚ
  valves : ValvePositions
  heaters : HeaterLevels
  faults : List String
deriving DecidableEq, Repr

/-- `ipc::AckPayload`. -/
structure AckPayload where
  command : String
  status : String
  message : Option String
deriving DecidableEq, Repr

/-- `ipc::Message`: the decoded three-field envelope, with the payload
kept as its raw JSON text. -/
structure Message where
  version : String
  type : String
  payload_json : String
deriving DecidableEq, Repr

/-- `json_utils.hpp::optional_double_to_json`. -/
def optional_double_to_json (opt : Option ℚ) : String :=
  match opt with
  | some v => doubleToString v
  | none => "null"

/-- `json_utils.hpp::serialize_telemetry`. -/
def serialize_telemetry (t : TelemetryPayload) : String :=
  "\x7b\"timestamp_ms\":" ++ toString t.timestamp_ms ++ "," ++
  "\"mode\":\"" ++ escape_json_string t.mode ++ "\"," ++
  "\"temps\":\x7b" ++
    "\"vapour_head\":" ++ optional_double_to_json t.temps.vapour_head ++ "," ++
    "\"boiler_liquid\":" ++ optional_double_to_json t.temps.boiler_liquid ++ "," ++
    "\"pcb_environment\":" ++ optional_double_to_json t.temps.pcb_environment ++
  "\x7d," ++
  "\"pressures\":\x7b" ++
    "\"ambient\":" ++ optional_double_to_json t.pressures.ambient ++ "," ++
    "\"vapour\":" ++ optional_double_to_json t.pressures.vapour ++
  "\x7d," ++
  "\"flow_ml_min\":" ++ optional_double_to_json t.flow_ml_min ++ "," ++
  "\"valves\":\x7b" ++
    "\"reflux_control\":" ++ toString t.valves.reflux_control ++ "," ++
    "\"product_takeoff\":" ++ toString t.valves.product_takeoff ++
  "\x7d," ++
  "\"heaters\":\x7b" ++
    "\"heater_1\":" ++ toString t.heaters.heater_1 ++ "," ++
    "\"heater_2\":" ++ toString t.heaters.heater_2 ++
  "\x7d," ++
  "\"faults\":[" ++
    String.intercalate "," (t.faults.map (fun f => "\"" ++ escape_json_string f ++ "\"")) ++
  "]\x7d"

/-- `json_utils.hpp::serialize_ack`. -/
def serialize_ack (ack : AckPayload) : String :=
  "\x7b\"command\":\"" ++ escape_json_string ack.command ++ "\"," ++
  "\"status\":\"" ++ escape_json_string ack.status ++ "\"" ++
  (match ack.message with
   | some m => ",\"message\":\"" ++ escape_json_string m ++ "\""
   | none => "") ++
  "\x7d"

/-- `json_utils.hpp::serialize_message`: the envelope followed by exactly
one newline. -/
def serialize_message (type payload_json : String) : String :=
  "\x7b\"version\":\"" ++ PROTOCOL_VERSION ++ "\"," ++
  "\"type\":\"" ++ escape_json_string type ++ "\"," ++
  "\"payload\":" ++ payload_json ++ "\x7d\n"

/-- `json_utils.hpp::create_telemetry_message`. -/
def create_telemetry_message (t : TelemetryPayload) : String :=
  serialize_message "telemetry" (serialize_telemetry t)

/-- `json_utils.hpp::create_ack_message`. -/
def create_ack_message (ack : AckPayload) : String :=
  serialize_message "ack" (serialize_ack ack)

/-- Suffix of `l` starting at the first occurrence of the pattern `pat`,
mirroring `std::string::find` returning a position (here the suffix at
that position) or `npos` (here `none`). -/
def suffixFrom : List Char → List Char → Option (List Char)
  | [], pat => if pat.isEmpty then some [] else none
  | c :: tl, pat =>
      if pat.isPrefixOf (c :: tl) then some (c :: tl) else suffixFrom tl pat

/-- Suffix of `l` just after the first occurrence of the character `c`,
mirroring `std::string::find(char)` followed by stepping past it. -/
def afterChar : List Char → Char → Option (List Char)
  | [], _ => none
  | x :: tl, c => if x = c then some tl else afterChar tl c

/-- Scan of a JSON string value for its first unescaped closing quote:
at each quote the number of immediately preceding backslashes decides
(even means unescaped), as in the backslash-counting loop of
`extract_json_field`.  Returns the contents before the closing quote,
or `none` when no unescaped quote exists. -/
def strScan : List Char → ℕ → Option (List Char)
  | [], _ => none
  | c :: tl, run =>
      if c = '\x22' && run % 2 = 0 then some []
      else (fun r => c :: r) <$> strScan tl (if c = '\\' then run + 1 else 0)

/-- Brace-matching scan of `extract_json_field` for object values: the
count goes up at every opening and down at every closing brace,
ignoring string context, and the value ends at (and includes) the brace
that takes the count to zero; a string exhausted first yields the whole
remainder, as the C++ loop stops at `end_pos = size`. -/
def braceScan : List Char → ℕ → List Char
  | [], _ => []
  | c :: tl, depth =>
      if c = '\x7d' then (if depth = 1 then [c] else c :: braceScan tl (depth - 1))
      else if c = '\x7b' then c :: braceScan tl (depth + 1)
      else c :: braceScan tl depth

/-- Terminator set for bare (number / boolean / null) values in
`extract_json_field`. -/
def bareEnd (c : Char) : Bool :=
  c = ',' || c = '\x7d' || c = ']' || cIsSpace c

/-- `json_utils.hpp::extract_json_field`: locate `"field"` as a
substring, step past the following colon and whitespace, then extract a
string, object, or bare value. -/
def extract_json_field (json field : String) : Option String :=
  match suffixFrom json.data ('\x22' :: field.data ++ ['\x22']) with
  | none => none
  | some keySuffix =>
    match afterChar keySuffix ':' with
    | none => none
    | some afterColon =>
      let v := afterColon.dropWhile cIsSpace
      match v with
      | [] => none
      | '\x22' :: tl => (fun cs => String.mk cs) <$> strScan tl 0
      | '\x7b' :: tl => some (String.mk ('\x7b' :: braceScan tl 1))
      | _ => some (String.mk (v.takeWhile (fun c => !(bareEnd c))))

/-- `json_utils.hpp::parse_message`: require the three top-level fields,
failing silently (`std::nullopt`) when any is absent. -/
def parse_message (json : String) : Option Message :=
  match extract_json_field json "version" with
  | none => none
  | some v =>
    match extract_json_field json "type" with
    | none => none
    | some t =>
      match extract_json_field json "payload" with
      | none => none
      | some p => some ⟨v, t, p⟩

/-- `json_utils.hpp::extract_optional_double`: extract then convert with
`std::stod`, catching any conversion failure as `std::nullopt`. -/
def extract_optional_double (json field : String) : Option ℚ :=
  match extract_json_field json field with
  | none => none
  | some s =>
    match stodQ s with
    | .ok q => some q
    | .error _ => none

/-- `ipc::SetModePayload`. -/
structure SetModePayload where
  mode : String
deriving DecidableEq, Repr

/-- `ipc::SetTargetsPayload`. -/
structure SetTargetsPayload where
  target_abv : Option ℚ
  target_flow : Option ℚ
deriving DecidableEq, Repr

/-- `json_utils.hpp::parse_set_mode`. -/
def parse_set_mode (payload_json : String) : Option SetModePayload :=
  match extract_json_field payload_json "mode" with
  | none => none
  | some m => some ⟨m⟩

/-- `json_utils.hpp::parse_set_targets`: both fields optional, so the
parse itself never fails. -/
def parse_set_targets (payload_json : String) : Option SetTargetsPayload :=
  some ⟨extract_optional_double payload_json "target_abv",
        extract_optional_double payload_json "target_flow"⟩

namespace MainSrv

/-- The `ControllerState` struct defined in `src/controller/main.cpp`
(shared-path server): a mode string plus the two targets, initialized to
`IDLE`, `92.0`, `250.0`. -/
structure ControllerState where
  mode : String
  target_abv : ℚ
  target_flow : ℚ
deriving DecidableEq, Repr

/-- Initial shared-path server state (`main.cpp` member initializers). -/
def initState : ControllerState := ⟨"IDLE", 92, 250⟩

/-- `main.cpp ControllerState::get_telemetry`: the simulated telemetry
snapshot, parametrized by the current timestamp (the one impure input,
`ipc::get_timestamp_ms`). -/
def get_telemetry (st : ControllerState) (now : ℤ) : TelemetryPayload :=
  { timestamp_ms := now
    mode := st.mode
    temps := ⟨some (78.2 : ℚ), some (91.5 : ℚ), some (42.1 : ℚ)⟩
    pressures := ⟨some (101.3 : ℚ), none⟩
    flow_ml_min := some (240.0 : ℚ)
    valves := ⟨65, 30⟩
    heaters := ⟨70, 70⟩
    faults := [] }

/-- `main.cpp::process_command`: the shared-path dispatcher.  It returns
the updated state together with the single response line written back to
the client (`send_message` is the only effect). -/
def process_command (st : ControllerState) (now : ℤ) (msg : Message) :
    ControllerState × String :=
  if msg.version ≠ PROTOCOL_VERSION then
    (st, create_ack_message
      ⟨msg.type, "error", some ("Unsupported protocol version: " ++ msg.version)⟩)
  else if msg.type = "get_telemetry" then
    (st, create_telemetry_message (get_telemetry st now))
  else if msg.type = "set_mode" then
    match parse_set_mode msg.payload_json with
    | none => (st, create_ack_message ⟨msg.type, "error", some "Invalid set_mode payload"⟩)
    | some payload =>
      if payload.mode = "IDLE" || payload.mode = "ACTIVE" then
        ({ st with mode := payload.mode },
         create_ack_message ⟨msg.type, "ok", some ("Mode set to " ++ payload.mode)⟩)
      else
        (st, create_ack_message
          ⟨msg.type, "error", some ("Invalid mode value: " ++ payload.mode)⟩)
  else if msg.type = "set_targets" then
    match parse_set_targets msg.payload_json with
    | none => (st, create_ack_message ⟨msg.type, "error", some "Invalid set_targets payload"⟩)
    | some payload =>
      let st1 := match payload.target_abv with
        | some a => { st with target_abv := a }
        | none => st
      let st2 := match payload.target_flow with
        | some f => { st1 with target_flow := f }
        | none => st1
      (st2, create_ack_message ⟨msg.type, "ok", some "Targets updated"⟩)
  else
    (st, create_ack_message ⟨msg.type, "error", some ("Unknown command type: " ++ msg.type)⟩)

/-- The complete-line loop of `main.cpp::handle_client`, at line
granularity: each newline-delimited line is decoded with
`parse_message` and dispatched; a line that fails to decode closes the
connection immediately (the `Bool` is the closed-as-protocol-violation
flag) and nothing after it is ever processed.  The middle component
collects the responses written back to this connection, in order. -/
def handleLines (st : ControllerState) (now : ℤ) :
    List String → ControllerState × List String × Bool
  | [] => (st, [], false)
  | line :: rest =>
    match parse_message line with
    | some msg =>
      let r := process_command st now msg
      let t := handleLines r.1 now rest
      (t.1, r.2 :: t.2.1, t.2.2)
    | none => (st, [], true)

end MainSrv

namespace CtrlProto

/-- `minimal_json::JsonObject`: a flat string-to-string map
(`std::map<std::string, std::string> strings_`); numbers and booleans
are stored in their textual form.  Modelled as an association list with
overwrite-on-insert, which matches `std::map` lookup semantics. -/
abbrev JsonObject := List (String × String)

/-- `std::map::operator[]` assignment: overwrite an existing key or add
a new entry. -/
def jinsert (m : JsonObject) (k v : String) : JsonObject :=
  match m with
  | [] => [(k, v)]
  | (k0, v0) :: tl => if k0 = k then (k, v) :: tl else (k0, v0) :: jinsert tl k v

/-- `std::map::find` on the backing map. -/
def jfind (m : JsonObject) (k : String) : Option String :=
  match m with
  | [] => none
  | (k0, v0) :: tl => if k0 = k then some v0 else jfind tl k

/-- `JsonObject::has`. -/
def jhas (m : JsonObject) (k : String) : Bool :=
  (jfind m k).isSome

/-- `JsonObject::getString` with its default of `""`. -/
def jgetString (m : JsonObject) (k : String) : String :=
  (jfind m k).getD ""

/-- `JsonObject::getNumber` with its default of `0.0`; a present value
goes through `std::stod`, whose failure propagates as an exception. -/
def jgetNumber (m : JsonObject) (k : String) : Except String ℚ :=
  match jfind m k with
  | none => .ok 0
  | some s => stodQ s

/-- Character class of the number lexer in `JsonObject::parse`
(`isdigit || c == '.' || c == '-'`). -/
def numChar (c : Char) : Bool :=
  c.isDigit || c = '.' || c = '-'

/-- Whitespace-or-colon skip between a key and its value in
`JsonObject::parse`. -/
def wsColon (c : Char) : Bool :=
  cIsSpace c || c = ':'

/-- Whitespace-or-comma skip after a value in `JsonObject::parse`. -/
def wsComma (c : Char) : Bool :=
  cIsSpace c || c = ','

/-- Any character other than a double quote. -/
def notQuote (c : Char) : Bool :=
  c != '\x22'

/-- Value phase of one iteration of the `JsonObject::parse` loop: a
string, number, `true` or `false` value is consumed and stored; any
other leading character (notably `{` of a nested object, `[`, or `n` of
`null`) matches no case, consumes nothing, and leaves the position
unchanged — exactly the fall-through of the C++ chain. -/
def parseValue (r : List Char) (key : String) (acc : JsonObject) :
    JsonObject × List Char :=
  match r with
  | [] => (acc, [])
  | '\x22' :: tl =>
      (jinsert acc key (String.mk (tl.takeWhile notQuote)),
       (tl.dropWhile notQuote).drop 1)
  | c :: _ =>
      if c.isDigit || c = '-' then
        (jinsert acc key (String.mk (r.takeWhile numChar)), r.dropWhile numChar)
      else if r.take 4 = ['t', 'r', 'u', 'e'] then
        (jinsert acc key "true", r.drop 4)
      else if r.take 5 = ['f', 'a', 'l', 's', 'e'] then
        (jinsert acc key "false", r.drop 5)
      else (acc, r)

theorem lenDropWhileLe (p : Char → Bool) (l : List Char) :
    (l.dropWhile p).length ≤ l.length :=
  (List.dropWhile_sublist p).length_le

theorem parseValue_length_le (r : List Char) (key : String) (acc : JsonObject) :
    (parseValue r key acc).2.length ≤ r.length := by
  match r with
  | [] => simp [parseValue]
  | '\x22' :: tl =>
    simp only [parseValue]
    have h1 := lenDropWhileLe notQuote tl
    simp only [List.length_drop, List.length_cons]
    omega
  | c :: tl =>
    by_cases hq : c = '\x22'
    · subst hq
      simp only [parseValue]
      have h1 := lenDropWhileLe notQuote tl
      simp only [List.length_drop, List.length_cons]
      omega
    · simp only [parseValue]
      split
      · have h1 := lenDropWhileLe numChar (c :: tl)
        simpa using h1
      · split
        · simp only [List.length_drop, List.length_cons]
          omega
        · split
          · simp only [List.length_drop, List.length_cons]
            omega
          · simp

/-- Key-value loop of `JsonObject::parse`: skip whitespace; stop at end
of input or `}`; otherwise require a quoted key, skip whitespace and
colon, run the value phase, then skip whitespace and comma.  A
non-quote character where a key is expected raises
`Invalid JSON: expected key`.  The loop is driven by explicit fuel so
that it evaluates definitionally; every iteration consumes at least the
opening quote of its key, so the fuel `jparse` supplies (one more than
the number of remaining characters) is never exhausted, as
`parseEntries_fuel` proves below. -/
def parseEntries (fuel : ℕ) (l : List Char) (acc : JsonObject) :
    Except String JsonObject :=
  match fuel with
  | 0 => .error "Invalid JSON: expected key"
  | fuel + 1 =>
    match l.dropWhile cIsSpace with
    | [] => .ok acc
    | c :: tl =>
      if c = '\x7d' then .ok acc
      else if c = '\x22' then
        let key := String.mk (tl.takeWhile notQuote)
        let r2 := (tl.dropWhile notQuote).drop 1
        let r3 := r2.dropWhile wsColon
        let pv := parseValue r3 key acc
        parseEntries fuel (pv.2.dropWhile wsComma) pv.1
      else .error "Invalid JSON: expected key"

/-- Fuel adequacy: with more fuel than characters the loop's result does
not depend on the exact fuel, so the fuel in `jparse` is just the C++
`while` loop. -/
theorem parseEntries_fuel (fuel fuel2 : ℕ) (l : List Char) (acc : JsonObject)
    (h : l.length < fuel) (h2 : l.length < fuel2) :
    parseEntries fuel l acc = parseEntries fuel2 l acc := by
  induction fuel generalizing fuel2 l acc with
  | zero => omega
  | succ fuel ih =>
    obtain ⟨fuel2, rfl⟩ : ∃ k, fuel2 = k + 1 := ⟨fuel2 - 1, by omega⟩
    rw [parseEntries, parseEntries]
    have h0 : (l.dropWhile cIsSpace).length ≤ l.length := lenDropWhileLe _ _
    match hds : l.dropWhile cIsSpace with
    | [] => rfl
    | c :: tl =>
      rw [hds] at h0
      simp only [List.length_cons] at h0
      by_cases hbrace : c = '\x7d'
      · simp [hbrace]
      · by_cases hquote : c = '\x22'
        · simp only [hbrace, hquote, if_true, if_false, ite_true, ite_false,
            if_neg, not_false_iff]
          apply ih
          all_goals
            have h1 := lenDropWhileLe notQuote tl
            have h3 := lenDropWhileLe wsColon ((tl.dropWhile notQuote).drop 1)
            have h4 := parseValue_length_le
              ((((tl.dropWhile notQuote).drop 1)).dropWhile wsColon)
              (String.mk (tl.takeWhile notQuote)) acc
            have h5 := lenDropWhileLe wsComma
              (parseValue ((((tl.dropWhile notQuote).drop 1)).dropWhile wsColon)
                (String.mk (tl.takeWhile notQuote)) acc).2
            simp only [List.length_drop] at h1 h3 h4 h5 ⊢
            omega
        · simp [hbrace, hquote]

/-- `JsonObject::parse`: find the first opening brace (throwing
`Invalid JSON: missing opening brace` when there is none), then run the
key-value loop on what follows. -/
def jparse (s : String) : Except String JsonObject :=
  match s.data.dropWhile (fun c => c ≠ '\x7b') with
  | [] => .error "Invalid JSON: missing opening brace"
  | _ :: rest => parseEntries (rest.length + 1) rest []

/-- `controller::ControllerState::Mode`. -/
inductive Mode where
  | IDLE
  | ACTIVE
deriving DecidableEq, Repr

/-- `controller::ControllerState` of `ipc_protocol.h`: mode plus the two
targets. -/
structure ControllerState where
  mode : Mode
  target_abv : ℚ
  target_flow : ℚ
deriving DecidableEq, Repr

/-- `ControllerState::ControllerState()`: `IDLE`, `0.0`, `0.0`. -/
def ControllerState.init : ControllerState := ⟨.IDLE, 0, 0⟩

/-- Outcome of one command on the controller path: `IPCProtocol`
answers every message with either an ok ack (`create_ok_ack`) or an
error ack carrying a message (`create_error_ack`).  The corrupted
serialization of the acks in `ipc_protocol.cpp` is not modelled; the
ack is kept structurally. -/
inductive Ack where
  | ok
  | error (message : String)
deriving DecidableEq, Repr

/-- `IPCProtocol::create_ok_ack` outcome. -/
def create_ok_ack : Ack := .ok

/-- `IPCProtocol::create_error_ack` outcome. -/
def create_error_ack (message : String) : Ack := .error message

/-- `IPCProtocol::handle_get_telemetry`: no validation, ok ack. -/
def handle_get_telemetry (st : ControllerState) (_msg : JsonObject) :
    ControllerState × Ack :=
  (st, create_ok_ack)

/-- `IPCProtocol::handle_set_mode`: require the `mode` key, accept
exactly `IDLE` and `ACTIVE`, reject anything else with
`Invalid mode: <value>` and leave the state untouched. -/
def handle_set_mode (st : ControllerState) (msg : JsonObject) :
    ControllerState × Ack :=
  if !(jhas msg "mode") then (st, create_error_ack "Missing \x27mode\x27 field")
  else
    let mode_str := jgetString msg "mode"
    if mode_str = "IDLE" then ({ st with mode := .IDLE }, create_ok_ack)
    else if mode_str = "ACTIVE" then ({ st with mode := .ACTIVE }, create_ok_ack)
    else (st, create_error_ack ("Invalid mode: " ++ mode_str))

/-- `IPCProtocol::handle_set_targets`: both keys are required (the two
`has` checks and their messages are intact in the source); the numeric
values are fetched with `getNumber`, whose `std::stod` may throw, and
then range-checked before both fields are assigned together.  The
condition of the `target_abv` range check sits on a corrupted source
line; it is reconstructed as `abv < 0.0 || abv > 100.0`.
Modelled from the spec: section 4.2 requires `target_abv` to lie in
[0,100] inclusive, and the surviving fragment of the line carries the
error string `target_abv out of range (0-100)`. -/
def handle_set_targets (st : ControllerState) (msg : JsonObject) :
    Except String (ControllerState × Ack) := do
  if !(jhas msg "target_abv") then
    return (st, create_error_ack "Missing \x27target_abv\x27 field")
  else if !(jhas msg "target_flow") then
    return (st, create_error_ack "Missing \x27target_flow\x27 field")
  else
    let abv ← jgetNumber msg "target_abv"
    let flow ← jgetNumber msg "target_flow"
    if abv < 0 || abv > 100 then
      return (st, create_error_ack "target_abv out of range (0-100)")
    else if flow < 0 then
      return (st, create_error_ack "target_flow cannot be negative")
    else
      return ({ st with target_abv := abv, target_flow := flow }, create_ok_ack)

/-- Body of `IPCProtocol::process_message` inside its `try` block:
parse, validate `version` and `type`, then route.  Exceptions (from
`JsonObject::parse` or `std::stod`) travel in the `Except` layer. -/
def dispatchE (st : ControllerState) (line : String) :
    Except String (ControllerState × Ack) := do
  let msg ← jparse line
  if !(jhas msg "version") then
    return (st, create_error_ack "Missing \x27version\x27 field")
  else
    let version := jgetString msg "version"
    if version ≠ "v0" then
      return (st, create_error_ack ("Unknown version: " ++ version))
    else if !(jhas msg "type") then
      return (st, create_error_ack "Missing \x27type\x27 field")
    else
      let type := jgetString msg "type"
      if type = "get_telemetry" then return handle_get_telemetry st msg
      else if type = "set_mode" then return handle_set_mode st msg
      else if type = "set_targets" then handle_set_targets st msg
      else return (st, create_error_ack ("Unknown message type: " ++ type))

/-- `IPCProtocol::process_message`: the `try`/`catch` wrapper — any
exception becomes the error ack `Error: <what()>` and the state is left
unchanged. -/
def process_message (st : ControllerState) (line : String) :
    ControllerState × Ack :=
  match dispatchE st line with
  | .ok r => r
  | .error e => (st, create_error_ack ("Error: " ++ e))

end CtrlProto

namespace IpcServer

/-- `IpcServer::send` (`src/controller/src/ipc_server.cpp`), one
broadcast pass under the clients mutex.  Client sockets are modelled by
naturals and the outcome of `::send` on each socket by the predicate
`writeOk`.  The first loop iterates over the registered list `clients_`
as it stands — it is not mutated during the iteration — attempting a
write to every client and collecting the failing ones in `deadClients`;
only after that loop completes does the second loop close and
`erase`/`remove` the dead sockets.  The result is the triple
(sockets offered the message in order, `deadClients`, the live list
after removal). -/
def send (clients : List ℕ) (writeOk : ℕ → Bool) :
    List ℕ × List ℕ × List ℕ :=
  let attempted := clients
  let deadClients := clients.filter (fun c => !(writeOk c))
  let newClients := deadClients.foldl (fun cs d => cs.filter (fun c => c ≠ d)) clients
  (attempted, deadClients, newClients)

end IpcServer

namespace Ctrl

/-- `equilibria::ProcessState` (`controller.h`): sensor readings as
rationals standing for the `float` fields, actuator percentages as
naturals standing for `uint8_t`. -/
structure ProcessState where
  temp_vapour_head_degc : ℚ
  temp_boiler_liquid_degc : ℚ
  temp_pcb_environment_degc : ℚ
  pressure_ambient_kpa : ℚ
  pressure_vapour_kpa : ℚ
  flow_ml_min : ℚ
  valve_reflux_percent : ℕ
  valve_product_percent : ℕ
  heater_1_percent : ℕ
  heater_2_percent : ℕ
  fault_flags : ℕ
deriving DecidableEq, Repr

/-- The packed `TelemetryMessage` struct of `controller.cpp`: field
values before byte serialization.  Scaled readings are `int16_t`
(`ℤ` here), flow is `uint16_t`, percents are `uint8_t`, faults
`uint32_t`, presence `uint16_t`. -/
structure TelemetryMessage where
  version : ℕ
  timestamp_ms : ℕ
  mode : ℕ
  temp_vapour_head : ℤ
  temp_boiler_liquid : ℤ
  temp_pcb_environment : ℤ
  pressure_ambient : ℤ
  pressure_vapour : ℤ
  flow_ml_min : ℕ
  valve_reflux_control : ℕ
  valve_product_takeoff : ℕ
  heater_1 : ℕ
  heater_2 : ℕ
  faults : ℕ
  sensor_presence : ℕ
deriving DecidableEq, Repr

/-- Sentinel `INT16_MAX`: channel-absent marker of the scaled `int16_t`
readings. -/
def INT16_MAX : ℤ := 32767

/-- Sentinel `UINT16_MAX` for the flow channel. -/
def UINT16_MAX : ℕ := 65535

/-- Sentinel `UINT8_MAX` for valve and heater percent channels. -/
def UINT8_MAX : ℕ := 255

/-- Sensor-presence bits (`SensorPresenceBits` in `controller.cpp`). -/
def SENSOR_TEMP_VAPOUR_HEAD : ℕ := 1
def SENSOR_TEMP_BOILER_LIQUID : ℕ := 2
def SENSOR_TEMP_PCB_ENVIRONMENT : ℕ := 4
def SENSOR_PRESSURE_AMBIENT : ℕ := 8
def SENSOR_PRESSURE_VAPOUR : ℕ := 16
def SENSOR_FLOW : ℕ := 32
def SENSOR_VALVE_REFLUX : ℕ := 64
def SENSOR_VALVE_PRODUCT : ℕ := 128
def SENSOR_HEATER_1 : ℕ := 256
def SENSOR_HEATER_2 : ℕ := 512

/-- Truncation toward zero, the semantics of `static_cast<int16_t>` /
`static_cast<uint16_t>` applied to an in-range floating value. -/
def ratTrunc (x : ℚ) : ℤ :=
  if 0 ≤ x then ⌊x⌋ else ⌈x⌉

/-- `Controller::PublishTelemetry` (`controller.cpp`): build the frame
from the process state; every channel whose presence bit is clear is
encoded as its sentinel, otherwise the reading is scaled (temperatures
and pressures by 100, flow by 10) and truncated to the integer field. -/
def PublishTelemetry (sensor_presence : ℕ) (state : ProcessState)
    (timestamp_ms : ℕ) (mode : ℕ) : TelemetryMessage :=
  { version := 1
    timestamp_ms := timestamp_ms
    mode := mode % 256
    temp_vapour_head :=
      if sensor_presence &&& SENSOR_TEMP_VAPOUR_HEAD ≠ 0 then
        ratTrunc (state.temp_vapour_head_degc * 100) else INT16_MAX
    temp_boiler_liquid :=
      if sensor_presence &&& SENSOR_TEMP_BOILER_LIQUID ≠ 0 then
        ratTrunc (state.temp_boiler_liquid_degc * 100) else INT16_MAX
    temp_pcb_environment :=
      if sensor_presence &&& SENSOR_TEMP_PCB_ENVIRONMENT ≠ 0 then
        ratTrunc (state.temp_pcb_environment_degc * 100) else INT16_MAX
    pressure_ambient :=
      if sensor_presence &&& SENSOR_PRESSURE_AMBIENT ≠ 0 then
        ratTrunc (state.pressure_ambient_kpa * 100) else INT16_MAX
    pressure_vapour :=
      if sensor_presence &&& SENSOR_PRESSURE_VAPOUR ≠ 0 then
        ratTrunc (state.pressure_vapour_kpa * 100) else INT16_MAX
    flow_ml_min :=
      if sensor_presence &&& SENSOR_FLOW ≠ 0 then
        ((ratTrunc (state.flow_ml_min * 10)) % 65536).toNat else UINT16_MAX
    valve_reflux_control :=
      if sensor_presence &&& SENSOR_VALVE_REFLUX ≠ 0 then
        state.valve_reflux_percent else UINT8_MAX
    valve_product_takeoff :=
      if sensor_presence &&& SENSOR_VALVE_PRODUCT ≠ 0 then
        state.valve_product_percent else UINT8_MAX
    heater_1 :=
      if sensor_presence &&& SENSOR_HEATER_1 ≠ 0 then
        state.heater_1_percent else UINT8_MAX
    heater_2 :=
      if sensor_presence &&& SENSOR_HEATER_2 ≠ 0 then
        state.heater_2_percent else UINT8_MAX
    faults := state.fault_flags
    sensor_presence := sensor_presence % 65536 }

/-- One byte. -/
def u8 (n : ℕ) : List ℕ := [n % 256]

/-- Two bytes, little endian. -/
def u16le (n : ℕ) : List ℕ := [n % 256, n / 256 % 256]

/-- Four bytes, little endian. -/
def u32le (n : ℕ) : List ℕ :=
  [n % 256, n / 256 % 256, n / 65536 % 256, n / 16777216 % 256]

/-- Eight bytes, little endian. -/
def u64le (n : ℕ) : List ℕ :=
  u32le (n % 4294967296) ++ u32le (n / 4294967296)

/-- Two's-complement two bytes of an `int16_t` value. -/
def i16le (z : ℤ) : List ℕ := u16le ((z % 65536).toNat)

/-- Byte layout of the packed `TelemetryMessage`
(`__attribute__((packed))`, so the fields follow each other with no
padding, in declaration order). -/
def encodeFrame (m : TelemetryMessage) : List ℕ :=
  u8 m.version ++ u64le m.timestamp_ms ++ u8 m.mode ++
  i16le m.temp_vapour_head ++ i16le m.temp_boiler_liquid ++
  i16le m.temp_pcb_environment ++ i16le m.pressure_ambient ++
  i16le m.pressure_vapour ++ u16le m.flow_ml_min ++
  u8 m.valve_reflux_control ++ u8 m.valve_product_takeoff ++
  u8 m.heater_1 ++ u8 m.heater_2 ++ u32le m.faults ++
  u16le m.sensor_presence

end Ctrl

/-- Substring containment, used to state the error-message claims
("the message contains ..."). -/
def strContains (s pat : String) : Bool :=
  (suffixFrom s.data pat.data).isSome

/-- The exact scenario line of the spec:
`{"version":"v0","type":"get_telemetry","payload":{}}`. -/
def getTelemetryLine : String :=
  "\x7b\"version\":\"v0\",\"type\":\"get_telemetry\",\"payload\":\x7b\x7d\x7d"

/-- The exact ack line the spec expects back for `getTelemetryLine`. -/
def expectedGetTelemetryAck : String :=
  "\x7b\"version\":\"v0\",\"type\":\"ack\",\"payload\":\x7b\"command\":\"get_telemetry\",\"status\":\"ok\"\x7d\x7d\n"

/-- C6: processing `{"version":"v0","type":"get_telemetry","payload":{}}`
is claimed to produce the ok ack
`{"version":"v0","type":"ack","payload":{"command":"get_telemetry","status":"ok"}}`.
The code does not: the controller-path `IPCProtocol::process_message`
fails on the nested `payload` object (`minimal_json` has no object
values, so `JsonObject::parse` throws `Invalid JSON: expected key`) and
answers with an error ack; the shared-path `process_command` answers
`get_telemetry` with a telemetry message, not an ack at all.  This
theorem evaluates both dispatchers at the failing input. -/
theorem C6_get_telemetry_scenario :
    CtrlProto.process_message CtrlProto.ControllerState.init getTelemetryLine =
      (CtrlProto.ControllerState.init,
       CtrlProto.Ack.error "Error: Invalid JSON: expected key") ∧
    parse_message getTelemetryLine = some ⟨"v0", "get_telemetry", "\x7b\x7d"⟩ ∧
    (MainSrv.process_command MainSrv.initState 0 ⟨"v0", "get_telemetry", "\x7b\x7d"⟩).2 =
      create_telemetry_message (MainSrv.get_telemetry MainSrv.initState 0) ∧
    extract_json_field
      (MainSrv.process_command MainSrv.initState 0 ⟨"v0", "get_telemetry", "\x7b\x7d"⟩).2
      "type" = some "telemetry" ∧
    (MainSrv.process_command MainSrv.initState 0 ⟨"v0", "get_telemetry", "\x7b\x7d"⟩).2 ≠
      expectedGetTelemetryAck := by
  refine ⟨by decide, by decide, rfl, by decide, by decide⟩

theorem foldlFilterEq (ds cs : List ℕ) :
    ds.foldl (fun cs d => cs.filter (fun c => c ≠ d)) cs
      = cs.filter (fun c => !(ds.contains c)) := by
  induction ds generalizing cs with
  | nil => simp
  | cons d ds ih =>
    rw [List.foldl_cons, ih, List.filter_filter]
    apply List.filter_congr
    intro c _
    by_cases hcd : c = d
    · subst hcd
      simp [List.contains_cons]
    · simp [List.contains_cons, hcd, Ne.symm hcd]

/-- C9: one broadcast pass (`IpcServer::send`) offers the message to
every currently registered client, in registration order, without
mutating the list during the iteration; the clients whose write fails
are exactly those collected as dead, and they are removed only after
the pass, leaving exactly the clients whose write succeeded; a pass
over an empty live set is a no-op. -/
theorem C9_broadcast_pass (clients : List ℕ) (writeOk : ℕ → Bool) :
    (IpcServer.send clients writeOk).1 = clients ∧
    (IpcServer.send clients writeOk).2.1 = clients.filter (fun c => !(writeOk c)) ∧
    (IpcServer.send clients writeOk).2.2 = clients.filter (fun c => writeOk c) ∧
    IpcServer.send [] writeOk = ([], [], []) := by
  refine ⟨rfl, rfl, ?_, rfl⟩
  show ((clients.filter (fun c => !(writeOk c))).foldl
      (fun cs d => cs.filter (fun c => c ≠ d)) clients)
    = clients.filter (fun c => writeOk c)
  rw [foldlFilterEq]
  apply List.filter_congr
  intro c hc
  rcases h : writeOk c with _ | _
  · have : c ∈ clients.filter (fun c => !(writeOk c)) :=
      List.mem_filter.mpr ⟨hc, by simp [h]⟩
    simp [List.elem_iff, this, h]
  · have : c ∉ clients.filter (fun c => !(writeOk c)) := by
      intro hmem
      have := (List.mem_filter.mp hmem).2
      simp [h] at this
    simp [List.elem_iff, this, h]

theorem ratTrunc_scale_ne_sentinel (r : ℚ) (hlo : -327.67 ≤ r) (hhi : r ≤ 327.66) :
    Ctrl.ratTrunc (r * 100) ≠ Ctrl.INT16_MAX := by
  intro hEq
  unfold Ctrl.ratTrunc Ctrl.INT16_MAX at hEq
  split at hEq
  · have hle : r * 100 ≤ 32766 := by nlinarith
    have h1 : (⌊r * 100⌋ : ℚ) ≤ r * 100 := Int.floor_le _
    have h2 : ⌊r * 100⌋ ≤ ⌊(32766 : ℚ)⌋ := Int.floor_le_floor hle
    have h3 : ⌊(32766 : ℚ)⌋ = 32766 := by
      norm_num
    omega
  · rename_i hneg
    push_neg at hneg
    have h1 : ⌈r * 100⌉ ≤ ⌈(0 : ℚ)⌉ := Int.ceil_le_ceil hneg.le
    simp at h1
    omega

theorem flowScale_ne_sentinel (f : ℚ) (h0 : 0 ≤ f) (hhi : f ≤ 6553.4) :
    ((Ctrl.ratTrunc (f * 10)) % 65536).toNat ≠ Ctrl.UINT16_MAX := by
  have hx0 : (0 : ℚ) ≤ f * 10 := by nlinarith
  have hxk : f * 10 ≤ 65534 := by nlinarith
  unfold Ctrl.ratTrunc Ctrl.UINT16_MAX
  rw [if_pos hx0]
  have h1 : 0 ≤ ⌊f * 10⌋ := Int.floor_nonneg.mpr hx0
  have h2 : ⌊f * 10⌋ ≤ ⌊(65534 : ℚ)⌋ := Int.floor_le_floor hxk
  have h3 : ⌊(65534 : ℚ)⌋ = 65534 := by norm_num
  rw [Int.emod_eq_of_lt h1 (by omega)]
  omega

/-- C10: the packed telemetry frame is 32 bytes of fields in declaration
order with no padding, within the documented 64-byte budget; every
channel whose sensor-presence bit is clear is encoded as its sentinel
(`INT16_MAX` for the five scaled readings, `UINT16_MAX` for flow,
`UINT8_MAX` for valves and heaters); and a legitimately scaled reading
never collides with a sentinel: any ×100-scaled reading within the
representable band (|r| ≤ 327.66 on the high side) misses `INT16_MAX` —
in particular a 100.00 degree reading scales to 10000 — any ×10-scaled
flow up to 6553.4 misses `UINT16_MAX`, and any percent value up to 100
misses `UINT8_MAX`. -/
theorem C10_telemetry_frame (sensor_presence : ℕ) (state : Ctrl.ProcessState)
    (ts md : ℕ) :
    (Ctrl.encodeFrame (Ctrl.PublishTelemetry sensor_presence state ts md)).length = 32 ∧
    (Ctrl.encodeFrame (Ctrl.PublishTelemetry sensor_presence state ts md)).length ≤ 64 ∧
    (sensor_presence &&& Ctrl.SENSOR_TEMP_VAPOUR_HEAD = 0 →
      (Ctrl.PublishTelemetry sensor_presence state ts md).temp_vapour_head = Ctrl.INT16_MAX) ∧
    (sensor_presence &&& Ctrl.SENSOR_TEMP_BOILER_LIQUID = 0 →
      (Ctrl.PublishTelemetry sensor_presence state ts md).temp_boiler_liquid = Ctrl.INT16_MAX) ∧
    (sensor_presence &&& Ctrl.SENSOR_TEMP_PCB_ENVIRONMENT = 0 →
      (Ctrl.PublishTelemetry sensor_presence state ts md).temp_pcb_environment = Ctrl.INT16_MAX) ∧
    (sensor_presence &&& Ctrl.SENSOR_PRESSURE_AMBIENT = 0 →
      (Ctrl.PublishTelemetry sensor_presence state ts md).pressure_ambient = Ctrl.INT16_MAX) ∧
    (sensor_presence &&& Ctrl.SENSOR_PRESSURE_VAPOUR = 0 →
      (Ctrl.PublishTelemetry sensor_presence state ts md).pressure_vapour = Ctrl.INT16_MAX) ∧
    (sensor_presence &&& Ctrl.SENSOR_FLOW = 0 →
      (Ctrl.PublishTelemetry sensor_presence state ts md).flow_ml_min = Ctrl.UINT16_MAX) ∧
    (sensor_presence &&& Ctrl.SENSOR_VALVE_REFLUX = 0 →
      (Ctrl.PublishTelemetry sensor_presence state ts md).valve_reflux_control = Ctrl.UINT8_MAX) ∧
    (sensor_presence &&& Ctrl.SENSOR_VALVE_PRODUCT = 0 →
      (Ctrl.PublishTelemetry sensor_presence state ts md).valve_product_takeoff = Ctrl.UINT8_MAX) ∧
    (sensor_presence &&& Ctrl.SENSOR_HEATER_1 = 0 →
      (Ctrl.PublishTelemetry sensor_presence state ts md).heater_1 = Ctrl.UINT8_MAX) ∧
    (sensor_presence &&& Ctrl.SENSOR_HEATER_2 = 0 →
      (Ctrl.PublishTelemetry sensor_presence state ts md).heater_2 = Ctrl.UINT8_MAX) ∧
    (∀ r : ℚ, -327.67 ≤ r → r ≤ 327.66 → Ctrl.ratTrunc (r * 100) ≠ Ctrl.INT16_MAX) ∧
    Ctrl.ratTrunc ((100 : ℚ) * 100) = 10000 ∧ (10000 : ℤ) ≠ Ctrl.INT16_MAX ∧
    (∀ f : ℚ, 0 ≤ f → f ≤ 6553.4 →
      ((Ctrl.ratTrunc (f * 10)) % 65536).toNat ≠ Ctrl.UINT16_MAX) ∧
    (∀ v : ℕ, v ≤ 100 → v ≠ Ctrl.UINT8_MAX) := by
  refine ⟨?_, ?_, ?_, ?_, ?_, ?_, ?_, ?_, ?_, ?_, ?_, ?_,
    ratTrunc_scale_ne_sentinel, by norm_num [Ctrl.ratTrunc], by decide,
    flowScale_ne_sentinel, ?_⟩
  · simp [Ctrl.encodeFrame, Ctrl.u8, Ctrl.u16le, Ctrl.u32le, Ctrl.u64le, Ctrl.i16le]
  · simp [Ctrl.encodeFrame, Ctrl.u8, Ctrl.u16le, Ctrl.u32le, Ctrl.u64le, Ctrl.i16le]
  all_goals first
    | (intro hbit; simp [Ctrl.PublishTelemetry, hbit])
    | (intro v hv; unfold Ctrl.UINT8_MAX; omega)

/-- Closed witness for `C10_telemetry_frame`: evaluated at presence map
0 (all channels absent), a zero state, and the spec's 100.00 degree
example reading. -/
theorem C10_telemetry_frame_witness :
    (Ctrl.encodeFrame (Ctrl.PublishTelemetry 0 ⟨0, 0, 0, 0, 0, 0, 0, 0, 0, 0, 0⟩ 0 0)).length = 32 ∧
    (Ctrl.PublishTelemetry 0 ⟨0, 0, 0, 0, 0, 0, 0, 0, 0, 0, 0⟩ 0 0).temp_vapour_head =
      Ctrl.INT16_MAX ∧
    (Ctrl.PublishTelemetry 0 ⟨0, 0, 0, 0, 0, 0, 0, 0, 0, 0, 0⟩ 0 0).flow_ml_min =
      Ctrl.UINT16_MAX ∧
    Ctrl.ratTrunc ((100 : ℚ) * 100) ≠ Ctrl.INT16_MAX ∧
    ((Ctrl.ratTrunc ((240 : ℚ) * 10)) % 65536).toNat ≠ Ctrl.UINT16_MAX ∧
    (100 : ℕ) ≠ Ctrl.UINT8_MAX := by
  obtain ⟨h1, _, h3, _, _, _, _, h8, _, _, _, _, h13, h14, h15, h16, h17⟩ :=
    C10_telemetry_frame 0 ⟨0, 0, 0, 0, 0, 0, 0, 0, 0, 0, 0⟩ 0 0
  exact ⟨h1, h3 rfl, h8 rfl, h13 100 (by norm_num) (by norm_num),
    h16 240 (by norm_num) (by norm_num), h17 100 (by norm_num)⟩

/-- A shared-path line that does not decode (`parse_message` fails). -/
def malformedLine : String := "this is not json"

/-- C7: in the per-connection loop of `main.cpp::handle_client`, once a
line fails to decode the connection is closed at once (flag `true`) and
no later line from that connection is ever processed: the run on
`pre ++ bad :: post` is identical to the run on `pre ++ [bad]`, whatever
`post` holds.  (No error ack is sent for the malformed line, which is
within the claim's "at most one best-effort error ack".) -/
theorem C7_malformed_closes (st : MainSrv.ControllerState) (now : ℤ)
    (pre post : List String) (bad : String)
    (hpre : ∀ l ∈ pre, (parse_message l).isSome = true)
    (hbad : parse_message bad = none) :
    MainSrv.handleLines st now (pre ++ bad :: post) =
      MainSrv.handleLines st now (pre ++ [bad]) ∧
    (MainSrv.handleLines st now (pre ++ bad :: post)).2.2 = true := by
  induction pre generalizing st with
  | nil =>
    constructor <;> simp [MainSrv.handleLines, hbad]
  | cons l pre ih =>
    have hl : (parse_message l).isSome = true := hpre l (by simp)
    obtain ⟨msg, hmsg⟩ := Option.isSome_iff_exists.mp hl
    have hpre2 : ∀ x ∈ pre, (parse_message x).isSome = true := by
      intro x hx
      exact hpre x (by simp [hx])
    obtain ⟨h1, h2⟩ := ih (MainSrv.process_command st now msg).1 hpre2
    constructor
    · simp [MainSrv.handleLines, hmsg, h1]
    · simp [MainSrv.handleLines, hmsg, h2]

/-- Closed witness for `C7_malformed_closes`: one valid line, then a
malformed one, then a further valid line that is provably ignored. -/
theorem C7_malformed_closes_witness :
    MainSrv.handleLines MainSrv.initState 0
        ([getTelemetryLine] ++ malformedLine :: [getTelemetryLine]) =
      MainSrv.handleLines MainSrv.initState 0 ([getTelemetryLine] ++ [malformedLine]) ∧
    (MainSrv.handleLines MainSrv.initState 0
        ([getTelemetryLine] ++ malformedLine :: [getTelemetryLine])).2.2 = true :=
  C7_malformed_closes MainSrv.initState 0 [getTelemetryLine] [getTelemetryLine]
    malformedLine (by decide) (by decide)

/-- Flat command line accepted by the controller-path parser:
`set_mode` to `ACTIVE` (the `minimal_json` object is flat, so the
payload fields sit at the top level, as the comment in
`IPCProtocol::process_message` records). -/
def setModeActiveLine : String :=
  "\x7b\"version\":\"v0\",\"type\":\"set_mode\",\"mode\":\"ACTIVE\"\x7d"

/-- Flat `set_mode` line selecting `IDLE`. -/
def setModeIdleLine : String :=
  "\x7b\"version\":\"v0\",\"type\":\"set_mode\",\"mode\":\"IDLE\"\x7d"

/-- Flat `set_mode` line with the unsupported mode `BOGUS`. -/
def setModeBogusLine : String :=
  "\x7b\"version\":\"v0\",\"type\":\"set_mode\",\"mode\":\"BOGUS\"\x7d"

/-- C3: for every `set_mode` command (a line the controller-path parser
decodes to an object with `version` `v0`, `type` `set_mode`, and a
`mode` value), `IDLE` and `ACTIVE` give an ok ack and set
`ControllerState.mode`; any other mode string gives an error ack whose
message contains `Invalid mode` and leaves the mode untouched; and the
concrete sequence ACTIVE then IDLE acks ok twice and ends in `IDLE`. -/
theorem C3_set_mode (st : CtrlProto.ControllerState) (line : String)
    (obj : CtrlProto.JsonObject) (m : String)
    (hparse : CtrlProto.jparse line = .ok obj)
    (hver : CtrlProto.jfind obj "version" = some "v0")
    (htype : CtrlProto.jfind obj "type" = some "set_mode")
    (hmode : CtrlProto.jfind obj "mode" = some m) :
    (m = "IDLE" → CtrlProto.process_message st line =
      ({ st with mode := .IDLE }, CtrlProto.Ack.ok)) ∧
    (m = "ACTIVE" → CtrlProto.process_message st line =
      ({ st with mode := .ACTIVE }, CtrlProto.Ack.ok)) ∧
    (m ≠ "IDLE" → m ≠ "ACTIVE" →
      CtrlProto.process_message st line =
        (st, CtrlProto.Ack.error ("Invalid mode: " ++ m)) ∧
      strContains ("Invalid mode: " ++ m) "Invalid mode" = true) ∧
    ((CtrlProto.process_message CtrlProto.ControllerState.init setModeActiveLine).2 =
        CtrlProto.Ack.ok ∧
      (CtrlProto.process_message
        (CtrlProto.process_message CtrlProto.ControllerState.init setModeActiveLine).1
        setModeIdleLine).2 = CtrlProto.Ack.ok ∧
      (CtrlProto.process_message
        (CtrlProto.process_message CtrlProto.ControllerState.init setModeActiveLine).1
        setModeIdleLine).1.mode = CtrlProto.Mode.IDLE) := by
  have hgo : ∀ r, CtrlProto.handle_set_mode st obj = r →
      CtrlProto.process_message st line = r := by
    intro r hr
    unfold CtrlProto.process_message CtrlProto.dispatchE
    rw [hparse]
    simp [CtrlProto.jhas, hver, htype, CtrlProto.jgetString, Bind.bind, Except.bind,
      pure, Except.pure, hr]
  refine ⟨?_, ?_, ?_, by decide, by decide, by decide⟩
  · intro hm
    subst hm
    apply hgo
    simp [CtrlProto.handle_set_mode, CtrlProto.jhas, hmode, CtrlProto.jgetString,
      CtrlProto.create_ok_ack]
  · intro hm
    subst hm
    apply hgo
    simp [CtrlProto.handle_set_mode, CtrlProto.jhas, hmode, CtrlProto.jgetString,
      CtrlProto.create_ok_ack]
  · intro h1 h2
    refine ⟨?_, ?_⟩
    · apply hgo
      simp [CtrlProto.handle_set_mode, CtrlProto.jhas, hmode, CtrlProto.jgetString,
        CtrlProto.create_error_ack, h1, h2]
    · obtain ⟨md⟩ := m
      rfl

/-- Closed witness for `C3_set_mode`: the `BOGUS` mode is rejected with
`Invalid mode: BOGUS` and the state keeps its prior mode. -/
theorem C3_set_mode_witness :
    CtrlProto.process_message CtrlProto.ControllerState.init setModeBogusLine =
      (CtrlProto.ControllerState.init, CtrlProto.Ack.error "Invalid mode: BOGUS") :=
  ((C3_set_mode CtrlProto.ControllerState.init setModeBogusLine
      [("version", "v0"), ("type", "set_mode"), ("mode", "BOGUS")] "BOGUS"
      rfl (by decide) (by decide) (by decide)).2.2.1
    (by decide) (by decide)).1

/-- Flat `set_targets` line supplying only `target_abv` (with an
out-of-range value): the dispatcher's reply is about the missing
`target_flow`, not about the range. -/
def setTargetsAbvOnlyLine : String :=
  "\x7b\"version\":\"v0\",\"type\":\"set_targets\",\"target_abv\":150\x7d"

/-- C1 counterexample: for the `set_targets` command supplying only
`target_abv` = 150 (a supplied field failing validation), the
controller-path dispatcher does return an error ack and leaves the
state unchanged, but the message is `Missing 'target_flow' field` and
does not contain `out of range`, contradicting the claim's message
clause at this input. -/
theorem C1_counterexample :
    CtrlProto.process_message CtrlProto.ControllerState.init setTargetsAbvOnlyLine =
      (CtrlProto.ControllerState.init,
       CtrlProto.Ack.error "Missing \x27target_flow\x27 field") ∧
    strContains "Missing \x27target_flow\x27 field" "out of range" = false := by
  exact ⟨by decide, by decide⟩

/-- C1 (amended): for every `set_targets` command supplying both
`target_abv` and `target_flow` whose numeric values are fetched
successfully, if a supplied field fails validation the dispatcher
returns an error ack and applies nothing (the state is returned
exactly as it was): the message contains `out of range` whenever
`target_abv` is out of [0,100], and `cannot be negative` whenever
`target_abv` is in range and `target_flow` is negative. -/
theorem C1_set_targets_rejection (st : CtrlProto.ControllerState) (line : String)
    (obj : CtrlProto.JsonObject) (a f : ℚ)
    (hparse : CtrlProto.jparse line = .ok obj)
    (hver : CtrlProto.jfind obj "version" = some "v0")
    (htype : CtrlProto.jfind obj "type" = some "set_targets")
    (hhasA : CtrlProto.jhas obj "target_abv" = true)
    (hhasF : CtrlProto.jhas obj "target_flow" = true)
    (hA : CtrlProto.jgetNumber obj "target_abv" = .ok a)
    (hF : CtrlProto.jgetNumber obj "target_flow" = .ok f) :
    (a < 0 ∨ 100 < a →
      CtrlProto.process_message st line =
        (st, CtrlProto.Ack.error "target_abv out of range (0-100)") ∧
      strContains "target_abv out of range (0-100)" "out of range" = true) ∧
    (0 ≤ a → a ≤ 100 → f < 0 →
      CtrlProto.process_message st line =
        (st, CtrlProto.Ack.error "target_flow cannot be negative") ∧
      strContains "target_flow cannot be negative" "cannot be negative" = true) := by
  have hgo : ∀ r, CtrlProto.handle_set_targets st obj = .ok r →
      CtrlProto.process_message st line = r := by
    intro r hr
    unfold CtrlProto.process_message CtrlProto.dispatchE
    rw [hparse]
    simp [CtrlProto.jhas, hver, htype, CtrlProto.jgetString, Bind.bind, Except.bind,
      pure, Except.pure, hr]
  constructor
  · intro hcond
    refine ⟨hgo _ ?_, by decide⟩
    unfold CtrlProto.handle_set_targets
    rw [hhasA, hhasF]
    simp only [Bool.not_true, Bool.false_eq_true, if_false, Bind.bind, Except.bind, hA, hF]
    have hc : (a < 0 || a > 100) = true := by
      rcases hcond with h | h <;> simp [h]
    simp [hc, pure, Except.pure, CtrlProto.create_error_ack]
  · intro h0 h100 hneg
    refine ⟨hgo _ ?_, by decide⟩
    unfold CtrlProto.handle_set_targets
    rw [hhasA, hhasF]
    simp only [Bool.not_true, Bool.false_eq_true, if_false, Bind.bind, Except.bind, hA, hF]
    have hc : (a < 0 || a > 100) = false := by
      simp
      constructor
      · exact h0
      · exact h100
    simp [hc, hneg, pure, Except.pure, CtrlProto.create_error_ack]

/-- Flat `set_targets` line supplying both fields with `target_abv`
out of range. -/
def setTargetsBadAbvLine : String :=
  "\x7b\"version\":\"v0\",\"type\":\"set_targets\",\"target_abv\":150,\"target_flow\":1.5\x7d"

/-- Closed witness for `C1_set_targets_rejection`: both fields supplied,
`target_abv` = 150 is rejected with the range message and the state is
unchanged. -/
theorem C1_set_targets_rejection_witness :
    CtrlProto.process_message CtrlProto.ControllerState.init setTargetsBadAbvLine =
      (CtrlProto.ControllerState.init,
       CtrlProto.Ack.error "target_abv out of range (0-100)") :=
  ((C1_set_targets_rejection CtrlProto.ControllerState.init setTargetsBadAbvLine
      [("version", "v0"), ("type", "set_targets"), ("target_abv", "150"),
       ("target_flow", "1.5")] 150 (3 / 2)
      rfl (by decide) (by decide) (by decide) (by decide)
      (by
        simp [CtrlProto.jgetNumber, CtrlProto.jfind, stodQ, digitsVal, cIsSpace,
          List.dropWhile, List.takeWhile]
        try norm_num)
      (by
        simp [CtrlProto.jgetNumber, CtrlProto.jfind, stodQ, digitsVal, cIsSpace,
          List.dropWhile, List.takeWhile]
        try norm_num)).1
    (by norm_num)).1

/-- C2: for every shared-path `set_targets` command whose supplied
fields are all valid (`target_abv` in [0,100] when present,
`target_flow` nonnegative when present), `main.cpp::process_command`
acks ok (`Targets updated`) and the resulting `ControllerState` holds
exactly the supplied values while every omitted field keeps its prior
value; a payload carrying only one of the two fields is accepted the
same way. -/
theorem C2_set_targets_partial_update (st : MainSrv.ControllerState) (now : ℤ)
    (msg : Message)
    (hver : msg.version = "v0")
    (htype : msg.type = "set_targets")
    (hA : ∀ x, extract_optional_double msg.payload_json "target_abv" = some x →
      0 ≤ x ∧ x ≤ 100)
    (hF : ∀ y, extract_optional_double msg.payload_json "target_flow" = some y →
      0 ≤ y) :
    MainSrv.process_command st now msg =
      ({ mode := st.mode
         target_abv :=
           (extract_optional_double msg.payload_json "target_abv").getD st.target_abv
         target_flow :=
           (extract_optional_double msg.payload_json "target_flow").getD st.target_flow },
       create_ack_message ⟨"set_targets", "ok", some "Targets updated"⟩) := by
  unfold MainSrv.process_command
  rw [hver, htype]
  cases ha : extract_optional_double msg.payload_json "target_abv" <;>
    cases hf : extract_optional_double msg.payload_json "target_flow" <;>
      simp [PROTOCOL_VERSION, parse_set_targets, ha, hf]

/-- Closed witness for `C2_set_targets_partial_update`: a payload
supplying only `target_abv` = 42.5 is accepted, updates `target_abv`,
and leaves `target_flow` at its prior 250. -/
theorem C2_set_targets_partial_update_witness :
    MainSrv.process_command MainSrv.initState 0
        ⟨"v0", "set_targets", "\x7b\"target_abv\":42.5\x7d"⟩ =
      ({ mode := "IDLE", target_abv := 85 / 2, target_flow := 250 },
       create_ack_message ⟨"set_targets", "ok", some "Targets updated"⟩) := by
  have hs1 : extract_json_field "\x7b\"target_abv\":42.5\x7d" "target_abv" =
      some "42.5" := by decide
  have hs2 : stodQ "42.5" = .ok (85 / 2) := by
    simp [stodQ, digitsVal, cIsSpace, List.dropWhile, List.takeWhile]
    norm_num
  have he1 : extract_optional_double "\x7b\"target_abv\":42.5\x7d" "target_abv" =
      some (85 / 2) := by
    simp [extract_optional_double, hs1, hs2]
  have he2 : extract_optional_double "\x7b\"target_abv\":42.5\x7d" "target_flow" =
      none := by
    simp [extract_optional_double,
      show extract_json_field "\x7b\"target_abv\":42.5\x7d" "target_flow" = none
        from by decide]
  have h := C2_set_targets_partial_update MainSrv.initState 0
    ⟨"v0", "set_targets", "\x7b\"target_abv\":42.5\x7d"⟩ rfl rfl
    (by
      intro x hx
      rw [he1] at hx
      obtain rfl : (85 : ℚ) / 2 = x := Option.some.inj hx
      norm_num)
    (by
      intro y hy
      rw [he2] at hy
      exact Option.noConfusion hy)
  rw [h, he1, he2]
  simp [MainSrv.initState]

/-- A line with `version` and `type` but no `payload` member at all. -/
def noPayloadLine : String := "\x7b\"version\":\"v0\",\"type\":\"get_telemetry\"\x7d"

/-- C5 counterexample: the line
`{"version":"v0","type":"get_telemetry"}` lacks the top-level field
`payload`, yet the controller-path dispatcher does not fail with an
error naming `payload` — it never checks for `payload` at all and
answers with an ok ack. -/
theorem C5_counterexample :
    CtrlProto.process_message CtrlProto.ControllerState.init noPayloadLine =
      (CtrlProto.ControllerState.init, CtrlProto.Ack.ok) := by
  decide

/-- C5 (amended): on the controller path, a decoded message without a
`version` key is answered with an error ack whose message contains
`version`, and one with `version` `v0` but no `type` key with an error
ack whose message contains `type`; a missing `payload` is not checked
(see `C5_counterexample`).  On the shared path, `parse_message` fails
(with no error text) on any line in which the quoted key `"version"`
(resp. `"type"`, `"payload"`) does not occur at all. -/
theorem C5_missing_field_errors (st : CtrlProto.ControllerState) (line : String)
    (obj : CtrlProto.JsonObject)
    (hparse : CtrlProto.jparse line = .ok obj) :
    (CtrlProto.jhas obj "version" = false →
      CtrlProto.process_message st line =
        (st, CtrlProto.Ack.error "Missing \x27version\x27 field") ∧
      strContains "Missing \x27version\x27 field" "version" = true) ∧
    (CtrlProto.jfind obj "version" = some "v0" → CtrlProto.jhas obj "type" = false →
      CtrlProto.process_message st line =
        (st, CtrlProto.Ack.error "Missing \x27type\x27 field") ∧
      strContains "Missing \x27type\x27 field" "type" = true) ∧
    (∀ s : String, strContains s "\"version\"" = false → parse_message s = none) ∧
    (∀ s : String, strContains s "\"type\"" = false → parse_message s = none) ∧
    (∀ s : String, strContains s "\"payload\"" = false → parse_message s = none) := by
  have hnone : ∀ (s : String) (f : String),
      strContains s ("\"" ++ f ++ "\"") = false →
      extract_json_field s f = none := by
    intro s f hs
    unfold strContains at hs
    unfold extract_json_field
    have hdata : ("\"" ++ f ++ "\"").data = '\x22' :: f.data ++ ['\x22'] := by
      obtain ⟨fl⟩ := f
      rfl
    rw [hdata] at hs
    cases hsf : suffixFrom s.data ('\x22' :: f.data ++ ['\x22']) with
    | none => rfl
    | some v => rw [hsf] at hs; simp at hs
  refine ⟨?_, ?_, ?_, ?_, ?_⟩
  · intro hno
    refine ⟨?_, by decide⟩
    unfold CtrlProto.process_message CtrlProto.dispatchE
    rw [hparse]
    simp [hno, Bind.bind, Except.bind, pure, Except.pure, CtrlProto.create_error_ack]
  · intro hver hno
    refine ⟨?_, by decide⟩
    have hnone2 : CtrlProto.jfind obj "type" = none := by
      unfold CtrlProto.jhas at hno
      cases h : CtrlProto.jfind obj "type" with
      | none => rfl
      | some v => rw [h] at hno; simp at hno
    unfold CtrlProto.process_message CtrlProto.dispatchE
    rw [hparse]
    simp [CtrlProto.jhas, hver, hnone2, CtrlProto.jgetString, Bind.bind, Except.bind,
      pure, Except.pure, CtrlProto.create_error_ack]
  · intro s hs
    unfold parse_message
    rw [hnone s "version" hs]
  · intro s hs
    unfold parse_message
    rw [hnone s "type" hs]
    cases extract_json_field s "version" <;> rfl
  · intro s hs
    unfold parse_message
    rw [hnone s "payload" hs]
    cases extract_json_field s "version" <;> cases extract_json_field s "type" <;> rfl

/-- A line whose parsed object has no `version` key. -/
def noVersionLine : String := "\x7b\"type\":\"get_telemetry\",\"payload\":7\x7d"

/-- Closed witness for `C5_missing_field_errors`: a line without
`version` draws the `Missing 'version' field` error, and a string
without the key text `"payload"` fails shared-path decoding. -/
theorem C5_missing_field_errors_witness :
    CtrlProto.process_message CtrlProto.ControllerState.init noVersionLine =
      (CtrlProto.ControllerState.init,
       CtrlProto.Ack.error "Missing \x27version\x27 field") ∧
    parse_message "hello" = none := by
  obtain ⟨h1, _, _, _, h5⟩ := C5_missing_field_errors CtrlProto.ControllerState.init
    noVersionLine [("type", "get_telemetry"), ("payload", "7")] rfl
  exact ⟨(h1 (by decide)).1, h5 "hello" (by decide)⟩

/-- Status string carried by a controller-path ack. -/
def ackStatus : CtrlProto.Ack → String
  | .ok => "ok"
  | .error _ => "error"

/-- Wire form of the controller-path acks, reconstructed from the
corrupted `create_ok_ack` / `create_error_ack` bodies in
`ipc_protocol.cpp` (lines 131-152).  Both surviving variants write
`version`, `type`, a `status`, and for errors a `message` — neither
writes a `command` member, and the intact header declares
`create_ok_ack()` with no argument that could carry one.  This follows
the payload-nested variant that the unit tests read
(`j["payload"]["status"]`), with keys in the serializer's sorted-map
order. -/
def ackToLine : CtrlProto.Ack → String
  | .ok =>
    "\x7b\"payload\":\x7b\"status\":\"ok\"\x7d,\"type\":\"ack\",\"version\":\"v0\"\x7d"
  | .error m =>
    "\x7b\"payload\":\x7b\"message\":\"" ++ escape_json_string m ++
      "\",\"status\":\"error\"\x7d,\"type\":\"ack\",\"version\":\"v0\"\x7d"

/-- C8 counterexample: the dispatcher's acks do not have the claimed
shape `{command, status, message?}`.  The ack the controller-path
`process_message` returns for a successfully executed command carries
no `command` member at all (its serializers build only version, type,
status and message), and the shared-path reply to a well-formed
`get_telemetry` request is a message of type `telemetry`, not an ack
envelope at all. -/
theorem C8_counterexample :
    ackToLine (CtrlProto.process_message CtrlProto.ControllerState.init
        setModeActiveLine).2 =
      "\x7b\"payload\":\x7b\"status\":\"ok\"\x7d,\"type\":\"ack\",\"version\":\"v0\"\x7d" ∧
    strContains
      (ackToLine (CtrlProto.process_message CtrlProto.ControllerState.init
        setModeActiveLine).2) "\"command\"" = false ∧
    extract_json_field
      (MainSrv.process_command MainSrv.initState 0 ⟨"v0", "get_telemetry", "\x7b\x7d"⟩).2
      "type" = some "telemetry" := by
  refine ⟨by decide, by decide, by decide⟩

/-- C8 (amended): every input string handed to the controller-path
dispatcher produces an ack whose status is exactly `ok` or `error` and
leaves an exception-free result: in particular an exception inside the
`try` block (a parse failure here) is caught and surfaced as the local
`Error: ...` error ack with the state unchanged; these acks carry a
status and optional message but no command member
(`C8_counterexample`).  The full `{command, status, message?}` shape
holds of the shared-path `serialize_ack` acks: `process_command`
replies either with the telemetry message (the valid `get_telemetry`
case) or with `create_ack_message` of an `AckPayload` whose `command`
is the request type and whose status is exactly `ok` or `error`. -/
theorem C8_all_outcomes_are_acks (st : CtrlProto.ControllerState) (line : String)
    (stM : MainSrv.ControllerState) (now : ℤ) (msg : Message) :
    (ackStatus (CtrlProto.process_message st line).2 = "ok" ∨
     ackStatus (CtrlProto.process_message st line).2 = "error") ∧
    (∀ e, CtrlProto.jparse line = .error e →
      CtrlProto.process_message st line =
        (st, CtrlProto.Ack.error ("Error: " ++ e))) ∧
    ((MainSrv.process_command stM now msg).2 =
        create_telemetry_message (MainSrv.get_telemetry stM now) ∨
     ∃ p : AckPayload, (MainSrv.process_command stM now msg).2 = create_ack_message p ∧
       p.command = msg.type ∧ (p.status = "ok" ∨ p.status = "error")) := by
  refine ⟨?_, ?_, ?_⟩
  · cases h : (CtrlProto.process_message st line).2 <;> simp [ackStatus]
  · intro e he
    unfold CtrlProto.process_message CtrlProto.dispatchE
    rw [he]
    rfl
  · unfold MainSrv.process_command
    by_cases hv : msg.version ≠ PROTOCOL_VERSION
    · right
      exact ⟨_, by rw [if_pos hv], rfl, Or.inr rfl⟩
    · rw [if_neg hv]
      by_cases ht1 : msg.type = "get_telemetry"
      · left
        rw [if_pos ht1]
      · rw [if_neg ht1]
        by_cases ht2 : msg.type = "set_mode"
        · rw [if_pos ht2]
          right
          cases hp : parse_set_mode msg.payload_json with
          | none => exact ⟨_, rfl, rfl, Or.inr rfl⟩
          | some p =>
            by_cases hm : (p.mode = "IDLE" || p.mode = "ACTIVE") = true
            · exact ⟨⟨msg.type, "ok", some ("Mode set to " ++ p.mode)⟩,
                by simp only [hm, if_true], rfl, Or.inl rfl⟩
            · exact ⟨⟨msg.type, "error", some ("Invalid mode value: " ++ p.mode)⟩,
                by simp only [Bool.not_eq_true] at hm; simp only [hm, Bool.false_eq_true, if_false],
                rfl, Or.inr rfl⟩
        · rw [if_neg ht2]
          by_cases ht3 : msg.type = "set_targets"
          · rw [if_pos ht3]
            right
            cases hp : parse_set_targets msg.payload_json with
            | none => exact ⟨_, rfl, rfl, Or.inr rfl⟩
            | some p => exact ⟨_, rfl, rfl, Or.inl rfl⟩
          · rw [if_neg ht3]
            right
            exact ⟨_, rfl, rfl, Or.inr rfl⟩

/-- Closed witness for `C8_all_outcomes_are_acks`: the malformed line
is answered by the caught-exception error ack, state unchanged. -/
theorem C8_all_outcomes_are_acks_witness :
    CtrlProto.process_message CtrlProto.ControllerState.init malformedLine =
      (CtrlProto.ControllerState.init,
       CtrlProto.Ack.error "Error: Invalid JSON: missing opening brace") :=
  (C8_all_outcomes_are_acks CtrlProto.ControllerState.init malformedLine
      MainSrv.initState 0 ⟨"v0", "get_telemetry", "\x7b\x7d"⟩).2.1
    "Invalid JSON: missing opening brace" rfl

/-- An ASCII-safe JSON object payload with a closing brace inside a
string literal. -/
def braceyPayload : String := "\x7b\"a\":\"\x7d\"\x7d"

/-- C4 counterexample: encoding the supported type `get_telemetry` with
the ASCII-safe JSON object payload `{"a":"}"}` and decoding the result
succeeds but does not reproduce the payload: the brace-counting value
extraction of `extract_json_field` ignores string context and truncates
the payload at the brace inside the string. -/
theorem C4_counterexample :
    parse_message (serialize_message "get_telemetry" braceyPayload) =
      some ⟨"v0", "get_telemetry", "\x7b\"a\":\"\x7d"⟩ ∧
    ("\x7b\"a\":\"\x7d" : String) ≠ braceyPayload := by
  exact ⟨by decide, by decide⟩

theorem braceScan_no_braces (il rest : List Char)
    (h : ∀ c ∈ il, c ≠ '\x7b' ∧ c ≠ '\x7d') :
    braceScan ((il ++ ['\x7d']) ++ rest) 1 = il ++ ['\x7d'] := by
  induction il with
  | nil => simp [braceScan]
  | cons c tl ih =>
    obtain ⟨h1, h2⟩ := h c (by simp)
    have ih2 := ih (fun d hd => h d (by simp [hd]))
    have hstep : ((c :: tl) ++ ['\x7d']) ++ rest = c :: ((tl ++ ['\x7d']) ++ rest) := by
      simp
    rw [hstep]
    show braceScan (c :: ((tl ++ ['\x7d']) ++ rest)) 1 = (c :: tl) ++ ['\x7d']
    simp only [braceScan, h1, h2, if_false, ite_false, ih2]
    simp

/-- The supported message types (`ipc::MessageType`). -/
def supportedTypes : List String :=
  ["get_telemetry", "set_mode", "set_targets", "telemetry", "ack"]

/-- C4 (amended): for every supported message type and every ASCII-safe
JSON object payload `{` ++ inner ++ `}` whose interior contains no brace
characters (in particular every flat, un-nested object), decoding the
encoded envelope succeeds and yields exactly `{version v0, type, payload}`;
payloads with unbalanced braces inside string literals are decoded to a
different payload substring (`C4_counterexample`). -/
theorem C4_roundtrip (t : String) (inner : String)
    (ht : t ∈ supportedTypes)
    (hinner : ∀ c ∈ inner.data, c ≠ '\x7b' ∧ c ≠ '\x7d') :
    parse_message (serialize_message t ("\x7b" ++ inner ++ "\x7d")) =
      some ⟨"v0", t, "\x7b" ++ inner ++ "\x7d"⟩ := by
  have key : ∀ (t2 : String) (il : List Char),
      (∀ c ∈ il, c ≠ '\x7b' ∧ c ≠ '\x7d') →
      extract_json_field (serialize_message t2 ("\x7b" ++ String.mk il ++ "\x7d"))
        "version" = some "v0" →
      extract_json_field (serialize_message t2 ("\x7b" ++ String.mk il ++ "\x7d"))
        "type" = some t2 →
      extract_json_field (serialize_message t2 ("\x7b" ++ String.mk il ++ "\x7d"))
        "payload" =
        some (String.mk ('\x7b' :: braceScan ((il ++ ['\x7d']) ++ ['\x7d', '\n']) 1)) →
      parse_message (serialize_message t2 ("\x7b" ++ String.mk il ++ "\x7d")) =
        some ⟨"v0", t2, "\x7b" ++ String.mk il ++ "\x7d"⟩ := by
    intro t2 il hin hv htv hp
    unfold parse_message
    rw [hv, htv, hp, braceScan_no_braces il ['\x7d', '\n'] hin]
    rfl
  obtain ⟨il⟩ := inner
  have hin : ∀ c ∈ il, c ≠ '\x7b' ∧ c ≠ '\x7d' := hinner
  simp only [supportedTypes, List.mem_cons, List.not_mem_nil, or_false] at ht
  rcases ht with rfl | rfl | rfl | rfl | rfl
  · exact key _ il hin rfl rfl rfl
  · exact key _ il hin rfl rfl rfl
  · exact key _ il hin rfl rfl rfl
  · exact key _ il hin rfl rfl rfl
  · exact key _ il hin rfl rfl rfl

/-- Closed witness for `C4_roundtrip`: the flat payload `{"a":1}` round
trips exactly through encode then decode for type `get_telemetry`. -/
theorem C4_roundtrip_witness :
    parse_message (serialize_message "get_telemetry" ("\x7b" ++ "\"a\":1" ++ "\x7d")) =
      some ⟨"v0", "get_telemetry", "\x7b" ++ "\"a\":1" ++ "\x7d"⟩ :=
  C4_roundtrip "get_telemetry" "\"a\":1" (by decide) (by decide)

end Equilibria
